import Mathlib

/-!
Verification of the Tenant API Gateway
(`src/tenantMigration/src-tauri/src/lib.rs`).

The repository exposes five Tauri commands (`get_tenant`, `put_tenant`,
`query_venues`, `querywNetworks`, `query_aps`).  Each builds one HTTP
request (URL, headers, optional JSON body), sends it with a fresh
`reqwest::Client`, and reduces the outcome to `Result<String, String>`.

Shallow embedding: the network is an oracle (`NetOutcome`) supplying what
the HTTP library would hand back; each command becomes a pure function
from its arguments and the oracle value to the request it sends, the
lines it prints, and the `Result` it returns.
-/

set_option linter.unusedVariables false

namespace TenantGateway

/-- `serde_json::Value`.  Object fields keep insertion order, as
`serde_json`'s map does in its default configuration; keys are `String`
by the type, exactly as in `serde_json::Map<String, Value>`.  Numbers are
modelled as integers; `serde_json::Number` admits no NaN/infinity, and no
property proved here inspects numeric payloads. -/
inductive Json where
  | null : Json
  | bool (b : Bool) : Json
  | num (n : Int) : Json
  | str (s : String) : Json
  | arr (elems : List Json) : Json
  | obj (fields : List (String × Json)) : Json
deriving Repr

/-- `http::StatusCode` (re-exported by `reqwest`): a status code received
in a response, carried as its numeric value. -/
structure StatusCode where
  code : Nat
deriving Repr, DecidableEq

/-- `http::StatusCode::is_success`: true exactly for the 2xx range. -/
def StatusCode.is_success (s : StatusCode) : Bool :=
  200 ≤ s.code && s.code < 300

/-- `http::StatusCode::canonical_reason`: the canonical reason phrase for
a status code, `none` for codes outside the registered table.  Embeds the
table of the `http` crate. -/
def StatusCode.canonical_reason (s : StatusCode) : Option String :=
  match s.code with
  | 100 => some "Continue"
  | 101 => some "Switching Protocols"
  | 102 => some "Processing"
  | 200 => some "OK"
  | 201 => some "Created"
  | 202 => some "Accepted"
  | 203 => some "Non Authoritative Information"
  | 204 => some "No Content"
  | 205 => some "Reset Content"
  | 206 => some "Partial Content"
  | 207 => some "Multi-Status"
  | 208 => some "Already Reported"
  | 226 => some "IM Used"
  | 300 => some "Multiple Choices"
  | 301 => some "Moved Permanently"
  | 302 => some "Found"
  | 303 => some "See Other"
  | 304 => some "Not Modified"
  | 305 => some "Use Proxy"
  | 307 => some "Temporary Redirect"
  | 308 => some "Permanent Redirect"
  | 400 => some "Bad Request"
  | 401 => some "Unauthorized"
  | 402 => some "Payment Required"
  | 403 => some "Forbidden"
  | 404 => some "Not Found"
  | 405 => some "Method Not Allowed"
  | 406 => some "Not Acceptable"
  | 407 => some "Proxy Authentication Required"
  | 408 => some "Request Timeout"
  | 409 => some "Conflict"
  | 410 => some "Gone"
  | 411 => some "Length Required"
  | 412 => some "Precondition Failed"
  | 413 => some "Payload Too Large"
  | 414 => some "URI Too Long"
  | 415 => some "Unsupported Media Type"
  | 416 => some "Range Not Satisfiable"
  | 417 => some "Expectation Failed"
  | 418 => some "I\x27m a teapot"
  | 421 => some "Misdirected Request"
  | 422 => some "Unprocessable Entity"
  | 423 => some "Locked"
  | 424 => some "Failed Dependency"
  | 426 => some "Upgrade Required"
  | 428 => some "Precondition Required"
  | 429 => some "Too Many Requests"
  | 431 => some "Request Header Fields Too Large"
  | 451 => some "Unavailable For Legal Reasons"
  | 500 => some "Internal Server Error"
  | 501 => some "Not Implemented"
  | 502 => some "Bad Gateway"
  | 503 => some "Service Unavailable"
  | 504 => some "Gateway Timeout"
  | 505 => some "HTTP Version Not Supported"
  | 506 => some "Variant Also Negotiates"
  | 507 => some "Insufficient Storage"
  | 508 => some "Loop Detected"
  | 510 => some "Not Extended"
  | 511 => some "Network Authentication Required"
  | _ => none

/-- `Display` for `http::StatusCode`: the numeric code, a space, and the
canonical reason (or the crate's placeholder).  This is what
`format!("HTTP \x7b\x7d: \x7b\x7d", status, body)` interpolates for
`status` in the source. -/
def StatusCode.display (s : StatusCode) : String :=
  toString s.code ++ " " ++ (s.canonical_reason.getD "<unknown status code>")

/-- HTTP method as used by the source (`client.get` / `client.post`). -/
inductive Method where
  | GET : Method
  | POST : Method
  | PUT : Method
deriving Repr, DecidableEq

/-- The outbound request a command hands to `reqwest`: URL string, header
list in attachment order, and the JSON body passed to `.json(..)` when
present. -/
structure HttpRequest where
  method : Method
  url : String
  headers : List (String × String)
  body : Option Json
deriving Repr

/-- What the HTTP library hands back to a command:
`sendError` — `send().await` returned `Err` (transport failure);
`readError` — a response arrived with some status but `text().await`
returned `Err`; `response` — status and full body text. -/
inductive NetOutcome where
  | sendError (cause : String) : NetOutcome
  | readError (status : StatusCode) (cause : String) : NetOutcome
  | response (status : StatusCode) (body : String) : NetOutcome
deriving Repr, DecidableEq

/-- The response-handling tail shared verbatim by all five commands
(lines 20–29, 53–62, 81–90, 110–119 and 139–147 of `lib.rs` are
textually identical): map a send error to `"Request failed: <e>"`, a
body-read error to `"Failed to read response: <e>"`, then return the
body on `is_success` and `"HTTP <status>: <body>"` otherwise. -/
def handle_outcome (net : NetOutcome) : Except String String :=
  match net with
  | .sendError e => .error ("Request failed: " ++ e)
  | .readError _ e => .error ("Failed to read response: " ++ e)
  | .response status body =>
      if status.is_success then .ok body
      else .error ("HTTP " ++ status.display ++ ": " ++ body)

/-- `get_tenant` (lib.rs lines 10–30): the request it sends.
URL `format!("\x7b\x7d/tenants/\x7b\x7d", api_url, tenant_id)`, headers
`Authorization: Bearer <token>` and `Accept: application/json`, no body. -/
def get_tenant_request (api_url tenant_id token : String) : HttpRequest :=
  { method := .GET
    url := api_url ++ "/tenants/" ++ tenant_id
    headers := [("Authorization", "Bearer " ++ token),
                ("Accept", "application/json")]
    body := none }

/-- `get_tenant`: result for a given network outcome. -/
def get_tenant (api_url tenant_id token : String) (net : NetOutcome) :
    Except String String :=
  handle_outcome net

/-- `put_tenant` (lib.rs lines 33–63): the request it sends.  Despite the
name it POSTs; URL `format!("\x7b\x7d/mspCustomers", api_url)`; the body
is `body_data`, which is `tenant_data` unchanged ("flat payload
structure - NO data wrapper").  `tenant_id` is accepted but unused. -/
def put_tenant_request (api_url tenant_id token : String)
    (tenant_data : Json) : HttpRequest :=
  { method := .POST
    url := api_url ++ "/mspCustomers"
    headers := [("Authorization", "Bearer " ++ token),
                ("Content-Type", "application/json")]
    body := some tenant_data }

/-- `put_tenant`: result for a given network outcome. -/
def put_tenant (api_url tenant_id token : String) (tenant_data : Json)
    (net : NetOutcome) : Except String String :=
  handle_outcome net

/-- `query_venues` (lib.rs lines 66–91): POST to
`format!("\x7b\x7d/venues/query", api_url)` with headers Authorization,
Content-Type and `x-rks-tenantid: <tenant_id>`, body `query_data`. -/
def query_venues_request (api_url tenant_id token : String)
    (query_data : Json) : HttpRequest :=
  { method := .POST
    url := api_url ++ "/venues/query"
    headers := [("Authorization", "Bearer " ++ token),
                ("Content-Type", "application/json"),
                ("x-rks-tenantid", tenant_id)]
    body := some query_data }

/-- `query_venues`: result for a given network outcome. -/
def query_venues (api_url tenant_id token : String) (query_data : Json)
    (net : NetOutcome) : Except String String :=
  handle_outcome net

/-- `querywNetworks` (lib.rs lines 95–120): POST to
`format!("\x7b\x7d/wifiNetworks/query", api_url)`, same headers as
`query_venues`, body `query_data`. -/
def querywNetworks_request (api_url tenant_id token : String)
    (query_data : Json) : HttpRequest :=
  { method := .POST
    url := api_url ++ "/wifiNetworks/query"
    headers := [("Authorization", "Bearer " ++ token),
                ("Content-Type", "application/json"),
                ("x-rks-tenantid", tenant_id)]
    body := some query_data }

/-- `querywNetworks`: result for a given network outcome. -/
def querywNetworks (api_url tenant_id token : String) (query_data : Json)
    (net : NetOutcome) : Except String String :=
  handle_outcome net

/-- `query_aps` (lib.rs lines 123–148): POST to
`format!("\x7b\x7d/venues/aps/query", api_url)`, same headers as
`query_venues`, body `query_data`. -/
def query_aps_request (api_url tenant_id token : String)
    (query_data : Json) : HttpRequest :=
  { method := .POST
    url := api_url ++ "/venues/aps/query"
    headers := [("Authorization", "Bearer " ++ token),
                ("Content-Type", "application/json"),
                ("x-rks-tenantid", tenant_id)]
    body := some query_data }

/-- `query_aps`: result for a given network outcome. -/
def query_aps (api_url tenant_id token : String) (query_data : Json)
    (net : NetOutcome) : Except String String :=
  handle_outcome net

/-- JSON escaping of one character, as `serde_json`'s serializer writes
string contents: quote and backslash escaped, the short escapes for
control characters that have them, `\u00XX` for the rest, all other
characters verbatim. -/
def escape_json_char (c : Char) : String :=
  if c = '"' then "\\\""
  else if c = '\\' then "\\\\"
  else if c = '\n' then "\\n"
  else if c = '\r' then "\\r"
  else if c = '\t' then "\\t"
  else if c.toNat < 32 then
    "\\u00" ++ String.singleton (Nat.digitChar (c.toNat / 16)) ++
      String.singleton (Nat.digitChar (c.toNat % 16))
  else String.singleton c

/-- A JSON string literal: quoted, contents escaped. -/
def escape_json_string (s : String) : String :=
  "\"" ++ String.join (s.toList.map escape_json_char) ++ "\""

/-- Newline followed by `serde_json::ser::PrettyFormatter`'s two-space
indentation at depth `i`. -/
def nl_indent (i : Nat) : String :=
  "\n" ++ String.join (List.replicate i "  ")

mutual

/-- Pretty serialization of a `serde_json::Value` at indent depth `i`,
following `to_string_pretty`'s layout.  The `Except` threads the
`serde_json::Result`: serializing a `Value` introduces no error (the
only failure serde_json knows for maps — a non-string key — cannot occur
for `Value`, whose keys are `String`), which `json_pretty_ok` below makes
precise. -/
def json_pretty (i : Nat) : Json → Except String String
  | .null => .ok "null"
  | .bool b => .ok (if b then "true" else "false")
  | .num n => .ok (toString n)
  | .str s => .ok (escape_json_string s)
  | .arr [] => .ok "[]"
  | .arr (x :: xs) =>
      match json_pretty_items (i + 1) (x :: xs) with
      | .error e => .error e
      | .ok body => .ok ("[" ++ body ++ nl_indent i ++ "]")
  | .obj [] => .ok "\x7b\x7d"
  | .obj (f :: fs) =>
      match json_pretty_fields (i + 1) (f :: fs) with
      | .error e => .error e
      | .ok body => .ok ("\x7b" ++ body ++ nl_indent i ++ "\x7d")

/-- Array elements, one per line, comma-separated. -/
def json_pretty_items (i : Nat) : List Json → Except String String
  | [] => .ok ""
  | x :: xs =>
      match json_pretty i x, json_pretty_items i xs with
      | .error e, _ => .error e
      | .ok _, .error e => .error e
      | .ok s, .ok r =>
          .ok (nl_indent i ++ s ++ (if xs.isEmpty then "" else ",") ++ r)

/-- Object fields, one per line, `"key": value`, comma-separated. -/
def json_pretty_fields (i : Nat) : List (String × Json) → Except String String
  | [] => .ok ""
  | (k, v) :: fs =>
      match json_pretty i v, json_pretty_fields i fs with
      | .error e, _ => .error e
      | .ok _, .error e => .error e
      | .ok s, .ok r =>
          .ok (nl_indent i ++ escape_json_string k ++ ": " ++ s ++
            (if fs.isEmpty then "" else ",") ++ r)

end

/-- `serde_json::to_string_pretty`, with its fallible `Result<String>`
signature. -/
def to_string_pretty (v : Json) : Except String String :=
  json_pretty 0 v

/-- The `println!` output of `put_tenant` (lib.rs lines 37–43): the
request URL, the pretty-printed `tenant_data`, and the pretty-printed
`body_data` (which is `tenant_data`).  An `.error` models the
`.unwrap()` panic aborting the command before any request is sent. -/
def put_tenant_logs (api_url tenant_id token : String)
    (tenant_data : Json) : Except String (List String) :=
  match to_string_pretty tenant_data with
  | .error e => .error e
  | .ok s1 =>
      match to_string_pretty tenant_data with
      | .error e => .error e
      | .ok s2 =>
          .ok ["Request URL: " ++ (api_url ++ "/mspCustomers"),
               "Tenant Data: " ++ s1,
               "Request Body: " ++ s2]

/-- The `println!` output of `query_venues` (lib.rs lines 69–70). -/
def query_venues_logs (api_url tenant_id token : String)
    (query_data : Json) : Except String (List String) :=
  match to_string_pretty query_data with
  | .error e => .error e
  | .ok s =>
      .ok ["Venues Query URL: " ++ (api_url ++ "/venues/query"),
           "Query Data: " ++ s]

/-- The `println!` output of `querywNetworks` (lib.rs lines 98–99). -/
def querywNetworks_logs (api_url tenant_id token : String)
    (query_data : Json) : Except String (List String) :=
  match to_string_pretty query_data with
  | .error e => .error e
  | .ok s =>
      .ok ["Wifi Networks Query URL: " ++ (api_url ++ "/wifiNetworks/query"),
           "Query Data: " ++ s]

/-- The `println!` output of `query_aps` (lib.rs lines 126–127). -/
def query_aps_logs (api_url tenant_id token : String)
    (query_data : Json) : Except String (List String) :=
  match to_string_pretty query_data with
  | .error e => .error e
  | .ok s =>
      .ok ["APs Query URL: " ++ (api_url ++ "/venues/aps/query"),
           "Query Data: " ++ s]

/-- One invocation of one of the five commands, bundling the operation
choice with that call's own arguments. -/
inductive OpCall where
  | get (api_url tenant_id token : String) : OpCall
  | put (api_url tenant_id token : String) (tenant_data : Json) : OpCall
  | venues (api_url tenant_id token : String) (query_data : Json) : OpCall
  | wnets (api_url tenant_id token : String) (query_data : Json) : OpCall
  | aps (api_url tenant_id token : String) (query_data : Json) : OpCall

/-- The request a call sends, by dispatch to the command embedded above. -/
def OpCall.request : OpCall → HttpRequest
  | .get a t k => get_tenant_request a t k
  | .put a t k d => put_tenant_request a t k d
  | .venues a t k d => query_venues_request a t k d
  | .wnets a t k d => querywNetworks_request a t k d
  | .aps a t k d => query_aps_request a t k d

/-- The result a call returns for a given network outcome. -/
def OpCall.result : OpCall → NetOutcome → Except String String
  | .get a t k, net => get_tenant a t k net
  | .put a t k d, net => put_tenant a t k d net
  | .venues a t k d, net => query_venues a t k d net
  | .wnets a t k d, net => querywNetworks a t k d net
  | .aps a t k d, net => query_aps a t k d net

/-!
Concurrency model.  Tauri may run several commands concurrently; each
command of the source uses only local variables (its own arguments, a
fresh `reqwest::Client`, its own response) and touches no global mutable
state.  A call is therefore modelled as a small state machine over
call-local state, and two concurrent calls as an interleaving, chosen by
an arbitrary schedule, of their steps.
-/

/-- Progress of one in-flight call: not yet sent; sent (the request is
now on the wire); finished with a result. -/
inductive Phase where
  | ready : Phase
  | sent (req : HttpRequest) : Phase
  | done (req : HttpRequest) (res : Except String String) : Phase

/-- One step of one call: build-and-send the request, then receive and
reduce the outcome.  Everything read is the call's own data. -/
def stepPhase (c : OpCall) (net : NetOutcome) : Phase → Phase
  | .ready => .sent c.request
  | .sent r => .done r (c.result net)
  | .done r x => .done r x

/-- Iterated steps of a single call. -/
def stepN (c : OpCall) (net : NetOutcome) : Nat → Phase → Phase
  | 0, p => p
  | n + 1, p => stepN c net n (stepPhase c net p)

/-- Joint state of two concurrent calls. -/
structure PairState where
  p1 : Phase
  p2 : Phase

/-- One scheduler decision: `true` steps the first call, `false` the
second.  There is no shared component for a step to read or write. -/
def stepPair (c1 : OpCall) (n1 : NetOutcome) (c2 : OpCall)
    (n2 : NetOutcome) (w : Bool) (s : PairState) : PairState :=
  if w then { s with p1 := stepPhase c1 n1 s.p1 }
  else { s with p2 := stepPhase c2 n2 s.p2 }

/-- Run two concurrent calls under a schedule. -/
def runPair (c1 : OpCall) (n1 : NetOutcome) (c2 : OpCall)
    (n2 : NetOutcome) : List Bool → PairState → PairState
  | [], s => s
  | w :: rest, s => runPair c1 n1 c2 n2 rest (stepPair c1 n1 c2 n2 w s)

/-- The error-message taxonomy claimed by the specification: every
failure message is either `Request failed: <cause>` or
`HTTP <status>: <body>`. -/
def two_form_message (m : String) : Prop :=
  (∃ c, m = "Request failed: " ++ c) ∨ (∃ s b, m = "HTTP " ++ s ++ ": " ++ b)

/-- The error-message taxonomy the code actually has: additionally,
`text().await` failing after a response arrived yields
`Failed to read response: <cause>`. -/
def three_form_message (m : String) : Prop :=
  (∃ c, m = "Request failed: " ++ c) ∨
  (∃ c, m = "Failed to read response: " ++ c) ∨
  (∃ s b, m = "HTTP " ++ s ++ ": " ++ b)

/-!  Helper lemmas shared by the claim theorems. -/

/-- A list is a Boolean prefix of itself followed by anything. -/
theorem isPrefixOf_append_self (l1 l2 : List Char) :
    List.isPrefixOf l1 (l1 ++ l2) = true := by
  induction l1 with
  | nil => simp [List.isPrefixOf]
  | cons a as ih => simp [List.isPrefixOf, ih]

/-- If a string decomposes as `p ++ c` then `p`'s characters are a
prefix of its characters. -/
theorem toList_isPrefixOf_of_eq_append (p c m : String) (h : m = p ++ c) :
    List.isPrefixOf p.toList m.toList = true := by
  subst h
  simp only [String.toList, String.data_append]
  exact isPrefixOf_append_self _ _

/-- All five commands share the same outcome handling (the identical
response tails in `lib.rs`). -/
theorem result_eq_handle (c : OpCall) (net : NetOutcome) :
    c.result net = handle_outcome net := by
  cases c <;> rfl

mutual

/-- Pretty serialization of any `Json` value succeeds. -/
theorem json_pretty_ok (i : Nat) (v : Json) :
    ∃ s, json_pretty i v = Except.ok s := by
  match v with
  | .null => exact ⟨_, rfl⟩
  | .bool b => exact ⟨_, rfl⟩
  | .num n => exact ⟨_, rfl⟩
  | .str s => exact ⟨_, rfl⟩
  | .arr [] => exact ⟨_, rfl⟩
  | .arr (x :: xs) =>
      obtain ⟨s, hs⟩ := json_pretty_items_ok (i + 1) (x :: xs)
      refine ⟨"[" ++ s ++ nl_indent i ++ "]", ?_⟩
      simp [json_pretty, hs]
  | .obj [] => exact ⟨_, rfl⟩
  | .obj (f :: fs) =>
      obtain ⟨s, hs⟩ := json_pretty_fields_ok (i + 1) (f :: fs)
      refine ⟨"\x7b" ++ s ++ nl_indent i ++ "\x7d", ?_⟩
      simp [json_pretty, hs]

/-- Pretty serialization of array elements succeeds. -/
theorem json_pretty_items_ok (i : Nat) (l : List Json) :
    ∃ s, json_pretty_items i l = Except.ok s := by
  match l with
  | [] => exact ⟨_, rfl⟩
  | x :: xs =>
      obtain ⟨s, hs⟩ := json_pretty_ok i x
      obtain ⟨r, hr⟩ := json_pretty_items_ok i xs
      refine ⟨nl_indent i ++ s ++ (if xs.isEmpty then "" else ",") ++ r, ?_⟩
      simp [json_pretty_items, hs, hr]

/-- Pretty serialization of object fields succeeds. -/
theorem json_pretty_fields_ok (i : Nat) (l : List (String × Json)) :
    ∃ s, json_pretty_fields i l = Except.ok s := by
  match l with
  | [] => exact ⟨_, rfl⟩
  | (k, v) :: fs =>
      obtain ⟨s, hs⟩ := json_pretty_ok i v
      obtain ⟨r, hr⟩ := json_pretty_fields_ok i fs
      refine ⟨nl_indent i ++ escape_json_string k ++ ": " ++ s ++
        (if fs.isEmpty then "" else ",") ++ r, ?_⟩
      simp [json_pretty_fields, hs, hr]

end

/-- A finished call never moves again. -/
theorem stepN_done (c : OpCall) (net : NetOutcome) (n : Nat) (r : HttpRequest)
    (x : Except String String) : stepN c net n (.done r x) = .done r x := by
  induction n with
  | zero => rfl
  | succ k ih => simpa [stepN, stepPhase] using ih

/-- Two or more steps of its own complete a call, with the request and
result computed from that call's data alone. -/
theorem stepN_ready (c : OpCall) (net : NetOutcome) (n : Nat) (h : 2 ≤ n) :
    stepN c net n .ready = .done c.request (c.result net) := by
  obtain ⟨m, rfl⟩ : ∃ m, n = m + 2 := ⟨n - 2, by omega⟩
  show stepN c net (m + 2) .ready = _
  simp [stepN, stepPhase]
  exact stepN_done c net m _ _

/-- In an interleaved run, the first call's state evolves exactly as if
it ran alone for as many steps as the schedule granted it. -/
theorem runPair_p1 (c1 c2 : OpCall) (n1 n2 : NetOutcome) (sched : List Bool)
    (s : PairState) :
    (runPair c1 n1 c2 n2 sched s).p1 = stepN c1 n1 (sched.count true) s.p1 := by
  induction sched generalizing s with
  | nil => rfl
  | cons w rest ih =>
      cases w <;> simp [runPair, stepPair, List.count_cons, ih, stepN]

/-- Likewise for the second call. -/
theorem runPair_p2 (c1 c2 : OpCall) (n1 n2 : NetOutcome) (sched : List Bool)
    (s : PairState) :
    (runPair c1 n1 c2 n2 sched s).p2 = stepN c2 n2 (sched.count false) s.p2 := by
  induction sched generalizing s with
  | nil => rfl
  | cons w rest ih =>
      cases w <;> simp [runPair, stepPair, List.count_cons, ih, stepN]

/-- C1: for every operation, a received response whose status code lies
in the 2xx range makes the operation return `Success` carrying the
response body text exactly as received, with no transformation. -/
theorem success_body_passthrough (c : OpCall) (status : StatusCode)
    (body : String) (h1 : 200 ≤ status.code) (h2 : status.code < 300) :
    c.result (.response status body) = .ok body := by
  have hs : status.is_success = true := by
    simp [StatusCode.is_success]; omega
  cases c <;> simp [OpCall.result, get_tenant, put_tenant, query_venues,
    querywNetworks, query_aps, handle_outcome, hs]

/-- C1 witness: a 200 response with body `{"id":1}` yields
`Success("{"id":1}")` unchanged. -/
theorem success_body_passthrough_witness :
    (200 ≤ (StatusCode.mk 200).code ∧ (StatusCode.mk 200).code < 300) ∧
    (OpCall.get "https://api.example" "tenant-1" "tok").result
        (.response ⟨200⟩ "\x7b\"id\":1\x7d") = .ok "\x7b\"id\":1\x7d" :=
  ⟨⟨by decide, by decide⟩,
    success_body_passthrough (.get "https://api.example" "tenant-1" "tok")
      ⟨200⟩ "\x7b\"id\":1\x7d" (by decide) (by decide)⟩

/-- C2 counterexample: a response whose body read fails produces the
failure message `Failed to read response: <cause>`, which is neither of
the two claimed forms — so not every possible failure message is of one
of the two forms. -/
theorem error_taxonomy_counterexample :
    get_tenant "https://api.example" "tenant-1" "tok"
        (.readError ⟨200⟩ "connection reset") =
      .error "Failed to read response: connection reset" ∧
    ¬ two_form_message "Failed to read response: connection reset" := by
  refine ⟨rfl, ?_⟩
  rintro (⟨c, hc⟩ | ⟨s, b, hb⟩)
  · exact absurd (toList_isPrefixOf_of_eq_append _ _ _ hc) (by decide)
  · rw [String.append_assoc, String.append_assoc] at hb
    exact absurd (toList_isPrefixOf_of_eq_append _ _ _ hb) (by decide)

/-- C2 amended: every possible failure message of every operation takes
one of three forms — `Request failed: <cause>` for a transport failure,
`Failed to read response: <cause>` when the response body cannot be
read, and `HTTP <status>: <body>` for a received non-2xx response. -/
theorem error_message_three_forms (c : OpCall) (net : NetOutcome)
    (m : String) (h : c.result net = .error m) : three_form_message m := by
  rw [result_eq_handle] at h
  rcases net with e | ⟨st, e⟩ | ⟨st, b⟩
  · simp [handle_outcome] at h
    exact Or.inl ⟨e, h.symm⟩
  · simp [handle_outcome] at h
    exact Or.inr (Or.inl ⟨e, h.symm⟩)
  · by_cases hs : st.is_success
    · simp [handle_outcome, hs] at h
    · simp [handle_outcome, hs] at h
      exact Or.inr (Or.inr ⟨st.display, b, h.symm⟩)

/-- C2 amended, witness: a transport failure's message is of the first
form. -/
theorem error_message_three_forms_witness :
    three_form_message "Request failed: connection refused" :=
  error_message_three_forms (.get "https://api.example" "tenant-1" "tok")
    (.sendError "connection refused")
    "Request failed: connection refused" rfl

/-- C3: `get_tenant` builds the request URL exactly equal to
`api_url ++ "/tenants/" ++ tenant_id` and attaches the header
`Authorization: Bearer <token>`. -/
theorem get_tenant_url_and_auth_header (api_url tenant_id token : String) :
    (get_tenant_request api_url tenant_id token).url =
      api_url ++ "/tenants/" ++ tenant_id ∧
    ("Authorization", "Bearer " ++ token) ∈
      (get_tenant_request api_url tenant_id token).headers :=
  ⟨rfl, List.Mem.head _⟩

/-- C4 counterexample: a 404 response with body `not found` yields the
failure message `HTTP 404 Not Found: not found`, not the claimed
`HTTP 404: not found` — `Display` for the library's status-code type
renders the numeric code followed by the canonical reason phrase. -/
theorem http_error_status_display_counterexample :
    get_tenant "https://api.example" "tenant-1" "tok"
        (.response ⟨404⟩ "not found") =
      .error "HTTP 404 Not Found: not found" ∧
    "HTTP 404 Not Found: not found" ≠ "HTTP 404: not found" :=
  ⟨rfl, by decide⟩

/-- C4 amended: for every operation, a received non-2xx response yields
`Failure("HTTP <status-display>: <body>")` where `<status-display>` is
the numeric code, a space, and the canonical reason phrase (the HTTP
library's rendering); e.g. 404 with body `not found` gives
`Failure("HTTP 404 Not Found: not found")`. -/
theorem http_error_message_format (c : OpCall) (status : StatusCode)
    (body : String) (h : ¬(200 ≤ status.code ∧ status.code < 300)) :
    c.result (.response status body) =
      .error ("HTTP " ++ status.display ++ ": " ++ body) := by
  have hs : status.is_success = false := by
    simp [StatusCode.is_success]; omega
  cases c <;> simp [OpCall.result, get_tenant, put_tenant, query_venues,
    querywNetworks, query_aps, handle_outcome, hs]

/-- C4 amended, witness: the 404 instance. -/
theorem http_error_message_format_witness :
    ¬(200 ≤ (StatusCode.mk 404).code ∧ (StatusCode.mk 404).code < 300) ∧
    (OpCall.get "https://api.example" "tenant-1" "tok").result
        (.response ⟨404⟩ "not found") =
      .error "HTTP 404 Not Found: not found" :=
  ⟨by decide,
    http_error_message_format (.get "https://api.example" "tenant-1" "tok")
      ⟨404⟩ "not found" (by decide)⟩

/-- C5: each body-carrying operation sends the caller's JSON payload as
the request body identically — no fields added, removed or renamed, and
no wrapper object introduced. -/
theorem request_body_passthrough (api_url tenant_id token : String)
    (P : Json) :
    (put_tenant_request api_url tenant_id token P).body = some P ∧
    (query_venues_request api_url tenant_id token P).body = some P ∧
    (querywNetworks_request api_url tenant_id token P).body = some P ∧
    (query_aps_request api_url tenant_id token P).body = some P :=
  ⟨rfl, rfl, rfl, rfl⟩

/-- C6: the exact header lists — `Authorization: Bearer <token>`
everywhere; `Accept: application/json` on `get_tenant`;
`Content-Type: application/json` whenever a body is sent; and
`x-rks-tenantid: <tenant_id>` on exactly the three query-style
operations, absent from `get_tenant` and `put_tenant`. -/
theorem request_headers_as_prescribed (api_url tenant_id token : String)
    (P : Json) :
    (get_tenant_request api_url tenant_id token).headers =
      [("Authorization", "Bearer " ++ token),
       ("Accept", "application/json")] ∧
    (put_tenant_request api_url tenant_id token P).headers =
      [("Authorization", "Bearer " ++ token),
       ("Content-Type", "application/json")] ∧
    (query_venues_request api_url tenant_id token P).headers =
      [("Authorization", "Bearer " ++ token),
       ("Content-Type", "application/json"),
       ("x-rks-tenantid", tenant_id)] ∧
    (querywNetworks_request api_url tenant_id token P).headers =
      [("Authorization", "Bearer " ++ token),
       ("Content-Type", "application/json"),
       ("x-rks-tenantid", tenant_id)] ∧
    (query_aps_request api_url tenant_id token P).headers =
      [("Authorization", "Bearer " ++ token),
       ("Content-Type", "application/json"),
       ("x-rks-tenantid", tenant_id)] ∧
    "x-rks-tenantid" ∉
      ((get_tenant_request api_url tenant_id token).headers.map Prod.fst) ∧
    "x-rks-tenantid" ∉
      ((put_tenant_request api_url tenant_id token P).headers.map Prod.fst) := by
  refine ⟨rfl, rfl, rfl, rfl, rfl, ?_, ?_⟩ <;>
    simp [get_tenant_request, put_tenant_request]

/-- C7: `put_tenant` implements variant A of the update-tenant
contract: a POST to `api_url ++ "/mspCustomers"` carrying the caller's
payload as the request body. -/
theorem put_tenant_variant_a (api_url tenant_id token : String) (P : Json) :
    (put_tenant_request api_url tenant_id token P).method = .POST ∧
    (put_tenant_request api_url tenant_id token P).url =
      api_url ++ "/mspCustomers" ∧
    (put_tenant_request api_url tenant_id token P).body = some P :=
  ⟨rfl, rfl, rfl⟩

/-- C8: under any interleaving that lets both calls finish, each of two
concurrent calls completes with the request and the result computed from
its own call data (operation, arguments, its own network outcome) alone;
nothing of the other call — credentials, headers, body, response —
reaches it, there being no shared mutable state to carry it. -/
theorem gateway_no_cross_call_leak (c1 c2 : OpCall) (n1 n2 : NetOutcome)
    (sched : List Bool) (h1 : 2 ≤ sched.count true)
    (h2 : 2 ≤ sched.count false) :
    (runPair c1 n1 c2 n2 sched ⟨.ready, .ready⟩).p1 =
      .done c1.request (c1.result n1) ∧
    (runPair c1 n1 c2 n2 sched ⟨.ready, .ready⟩).p2 =
      .done c2.request (c2.result n2) := by
  constructor
  · rw [runPair_p1]; exact stepN_ready _ _ _ h1
  · rw [runPair_p2]; exact stepN_ready _ _ _ h2

/-- C8 witness: two interleaved calls with different credentials, one
`get_tenant` and one `query_venues`, each finishing with its own request
and result. -/
theorem gateway_no_cross_call_leak_witness :
    (2 ≤ ([true, false, true, false].count true) ∧
     2 ≤ ([true, false, true, false].count false)) ∧
    ((runPair (.get "https://a.example" "tenant-1" "key-1")
        (.response ⟨200⟩ "alpha")
        (.venues "https://b.example" "tenant-2" "key-2" .null)
        (.response ⟨200⟩ "beta")
        [true, false, true, false] ⟨.ready, .ready⟩).p1 =
      .done (OpCall.get "https://a.example" "tenant-1" "key-1").request
        ((OpCall.get "https://a.example" "tenant-1" "key-1").result
          (.response ⟨200⟩ "alpha")) ∧
     (runPair (.get "https://a.example" "tenant-1" "key-1")
        (.response ⟨200⟩ "alpha")
        (.venues "https://b.example" "tenant-2" "key-2" .null)
        (.response ⟨200⟩ "beta")
        [true, false, true, false] ⟨.ready, .ready⟩).p2 =
      .done (OpCall.venues "https://b.example" "tenant-2" "key-2" .null).request
        ((OpCall.venues "https://b.example" "tenant-2" "key-2" .null).result
          (.response ⟨200⟩ "beta"))) :=
  ⟨⟨by decide, by decide⟩,
    gateway_no_cross_call_leak
      (.get "https://a.example" "tenant-1" "key-1")
      (.venues "https://b.example" "tenant-2" "key-2" .null)
      (.response ⟨200⟩ "alpha") (.response ⟨200⟩ "beta")
      [true, false, true, false] (by decide) (by decide)⟩

/-- C9: `put_tenant` ignores its `tenant_id` argument entirely: two
invocations differing only in `tenant_id` send the identical request
and, given the same remote outcome, return the identical result. -/
theorem put_tenant_ignores_tenant_id (api_url t t' token : String)
    (P : Json) (net : NetOutcome) :
    put_tenant_request api_url t token P = put_tenant_request api_url t' token P ∧
    put_tenant api_url t token P net = put_tenant api_url t' token P net :=
  ⟨rfl, rfl⟩

/-- C10: the debug-printing `to_string_pretty(..).unwrap()` calls never
panic — pretty serialization succeeds for every JSON value, so every
body-carrying operation's logging step completes for all inputs. -/
theorem pretty_serialization_total (api_url tenant_id token : String)
    (v : Json) :
    (put_tenant_logs api_url tenant_id token v).isOk = true ∧
    (query_venues_logs api_url tenant_id token v).isOk = true ∧
    (querywNetworks_logs api_url tenant_id token v).isOk = true ∧
    (query_aps_logs api_url tenant_id token v).isOk = true := by
  obtain ⟨s, hs⟩ := json_pretty_ok 0 v
  refine ⟨?_, ?_, ?_, ?_⟩ <;>
    simp [put_tenant_logs, query_venues_logs, querywNetworks_logs,
      query_aps_logs, to_string_pretty, hs, Except.isOk, Except.toBool]

end TenantGateway
